import Mathlib

/-!
Shallow embedding of the Alanpay wallet/ledger backend (app/models/user.py,
app/models/transaction.py, app/models/qrcode.py, app/route/pay.py) and proofs
about its payment operations.

Modelling conventions:
* Monetary values (`MoneyDecimal`, a 2-fractional-digit decimal in the source)
  are integers counting cents; `Decimal(0.00)` is `(0 : Int)`.
* `datetime` values are natural numbers (seconds); `datetime.now()` becomes an
  explicit `now` parameter threaded into each handler.
* The database session is a `DB` record of the three tables; `session.add` +
  `session.commit` of a handler is the pure construction of the next `DB`.
  A handler whose `except` block re-raises is embedded as `Except Err _`;
  the one handler whose `except` block does not re-raise (`topup`) returns
  `DB × Option PaymentResponse`, `none` standing for the swallowed exception.
* String uuids (`qr_id` tokens) are modelled as naturals.
* Surrogate primary keys of `transaction` rows and response timestamps are not
  modelled; nothing in the verified properties mentions them.
-/

namespace Alanpay

/-- Enum `TransactionType` from app/models/transaction.py. -/
inductive TransactionType
  | topup
  | withdrawal
  | transfer_sent
  | transfer_received
  | qr_payment
deriving DecidableEq, Repr

/-- Enum `QRType` from app/models/qrcode.py. -/
inductive QRType
  | request_payment
  | send_payment
deriving DecidableEq, Repr

/-- A row of the `user` table (app/models/user.py `User`); the password column
plays no role in the payment logic and is omitted. -/
structure User where
  id : Nat
  username : String
deriving DecidableEq, Repr

/-- A row of the `transaction` table (app/models/transaction.py `Transaction`).
`qr_id` is the foreign key to `qrcode.id` (nullable; `None` for top-ups,
withdrawals and plain transfers). -/
structure Transaction where
  user_id : Nat
  amount : Int
  transaction_type : TransactionType
  description : String
  timestamp : Nat
  reference_user_id : Option Nat := none
  qr_id : Option Nat := none
deriving DecidableEq, Repr

/-- A row of the `qrcode` table (app/models/qrcode.py `QRCode`).  Note the
naming in the source: the field `qr_id` here is the public uuid token,
while `Transaction.qr_id` refers to the primary key `id` of this row. -/
structure QRCode where
  id : Nat
  qr_id : Nat
  qr_type : QRType
  max_use_count : Nat
  amount : Option Int
  created_at : Nat
  expire : Option Nat
  user_id : Nat
deriving DecidableEq, Repr

/-- The consistent data store: the three tables the payment logic touches. -/
structure DB where
  users : List User
  transactions : List Transaction
  qrcodes : List QRCode
deriving DecidableEq, Repr

/-- Error kinds: the error taxonomy of the spec.  The code raises
`InvalidAmountException`, `InsufficientBalanceException`,
`UserNotFoundException`, `TransactionNotFoundException` and
`UnauthorizedException`, mapped to the first five kinds.
`self_transfer_disallowed` is the `SelfTransferDisallowed` entry of the
spec taxonomy; no exception class in app/exceptions corresponds to it and no code
path produces it (this matters for claim C6). -/
inductive ErrKind
  | invalid_amount
  | insufficient_balance
  | user_not_found
  | transaction_not_found
  | unauthorized
  | self_transfer_disallowed
deriving DecidableEq, Repr

/-- A raised domain exception: its kind and the `detail` string the HTTP layer
returns to the caller (all of them as HTTP 400 via `TransactionException`). -/
structure Err where
  kind : ErrKind
  detail : String
deriving DecidableEq, Repr

/-- Response shape `PaymentResponse` from app/models/payment.py (the surrogate
`transaction_id` and `timestamp` fields are not modelled). -/
structure PaymentResponse where
  message : String
  amount : String
  new_balance : String
deriving DecidableEq, Repr

/-- Response shape `QRCodeResponse` from app/models/payment.py. -/
structure QRCodeResponse where
  qr_id : Nat
  qr_type : QRType
  amount : Option Int
  expire : Option Nat
deriving DecidableEq, Repr

/-- Renders cents the way `f"{amount:.2f}"` renders a 2-place Decimal. -/
def fmt_money (cents : Int) : String :=
  let sign := if cents < 0 then "-" else ""
  let n := cents.natAbs
  let frac := n % 100
  let fracStr := if frac < 10 then "0" ++ toString frac else toString frac
  sign ++ toString (n / 100) ++ "." ++ fracStr

/-- Query `User.total_balance` (app/models/user.py lines 39-46):
`SELECT COALESCE(SUM(amount), 0.00) FROM transaction WHERE user_id = :user_id`.
`SUM` over no rows is NULL, hence the COALESCE branch for the empty filter. -/
def total_balance (db : DB) (user_id : Nat) : Int :=
  match db.transactions.filter (fun t => t.user_id == user_id) with
  | [] => 0
  | rows => (rows.map (fun t => t.amount)).sum

/-- Query `User.get_by_username` (app/models/user.py): first row with the username. -/
def get_by_username (db : DB) (name : String) : Option User :=
  db.users.find? (fun u => u.username == name)

/-- Query `QRCode.get_by_qr_id` (app/models/qrcode.py): first row with the token. -/
def get_by_qr_id (db : DB) (tok : Nat) : Option QRCode :=
  db.qrcodes.find? (fun q => q.qr_id == tok)

/-- Query `QRCode.current_use_count` (app/models/qrcode.py lines 54-59):
`SELECT COUNT(*) FROM transaction WHERE qr_id = :id AND
 user_id = (SELECT user_id FROM qrcode WHERE id = :id LIMIT 1)`.
The subquery reads the owner of the voucher from the table; comparing `user_id`
with a NULL subquery result (voucher row absent) matches no row. -/
def current_use_count (db : DB) (qid : Nat) : Nat :=
  match db.qrcodes.find? (fun q => q.id == qid) with
  | none => 0
  | some row =>
      (db.transactions.filter
        (fun t => t.qr_id == some qid && t.user_id == row.user_id)).length

/-- Predicate `QRCode.is_exceed_limit` (app/models/qrcode.py lines 61-63). -/
def is_exceed_limit (db : DB) (q : QRCode) : Bool :=
  decide (q.max_use_count ≤ current_use_count db q.id)

/-- Predicate `QRCode.is_expired` (app/models/qrcode.py lines 76-78):
`self.expire is not None and datetime.now() > self.expire`. -/
def is_expired (q : QRCode) (now : Nat) : Bool :=
  match q.expire with
  | none => false
  | some t => decide (t < now)

/-- Predicate `QRCode.can_be_used` (app/models/qrcode.py lines 80-81): only the expiry
is consulted; the use count is not. -/
def can_be_used (q : QRCode) (now : Nat) : Bool :=
  !is_expired q now

/-- SQL three-valued truth of `x NOT IN (subquery)` where the subquery yields
`s` (a list of nullable values): the predicate is TRUE iff no member of `s`
is NULL and no member equals `x`.  (If some member equals `x` it is FALSE;
otherwise, if a NULL member exists, it is UNKNOWN — and a DELETE keeps every
row whose predicate is not TRUE.) -/
def sql_not_in_true (x : Nat) (s : List (Option Nat)) : Bool :=
  decide (none ∉ s ∧ some x ∉ s)

/-- Maintenance query `QRCode.clean_unused_send_qrcodes` (app/models/qrcode.py lines 83-92):
`DELETE FROM qrcode WHERE qr_type = SEND_PAYMENT AND
 id NOT IN (SELECT qr_id FROM transaction)`.
There is no owner filter, and the subquery is the raw nullable `qr_id`
column, so the NOT IN obeys SQL three-valued logic (`sql_not_in_true`). -/
def clean_unused_send_qrcodes (db : DB) : DB :=
  { db with qrcodes := db.qrcodes.filter (fun q =>
      !(q.qr_type == QRType.send_payment &&
        sql_not_in_true q.id (db.transactions.map (fun t => t.qr_id)))) }

/-- Username of the owner of a voucher, via the `QRCode.user` relationship. -/
def owner_username (db : DB) (q : QRCode) : String :=
  match db.users.find? (fun u => u.id == q.user_id) with
  | none => ""
  | some u => u.username

/-- Handler `topup` (app/route/pay.py lines 27-68).  The `except` block of this
handler logs and rolls back but — unlike every other handler in the file —
does NOT re-raise, so a raised `InvalidAmountException` is swallowed and the
function returns `None`; hence the result type `DB × Option PaymentResponse`
with `none` for the swallowed-error outcome. -/
def topup (db : DB) (current_user : Nat) (amount : Int) (now : Nat) :
    DB × Option PaymentResponse :=
  if amount ≤ 0 then
    (db, none)
  else
    let transaction_record : Transaction :=
      { user_id := current_user
        amount := amount
        transaction_type := TransactionType.topup
        description := "Top-up of $" ++ fmt_money amount
        timestamp := now }
    let db2 : DB := { db with transactions := db.transactions ++ [transaction_record] }
    (db2,
      some { message := "Top-up processed successfully"
             amount := fmt_money amount
             new_balance := fmt_money (total_balance db2 current_user) })

/-- Handler `withdraw` (app/route/pay.py lines 70-119); its `except` block re-raises. -/
def withdraw (db : DB) (current_user : Nat) (amount : Int) (now : Nat) :
    Except Err (DB × PaymentResponse) :=
  if amount ≤ 0 then
    .error ⟨.invalid_amount, "Withdrawal amount must be greater than zero"⟩
  else
    let bal := total_balance db current_user
    if bal ≤ 0 then
      .error ⟨.insufficient_balance, "No balance available for withdrawal"⟩
    else if bal < amount then
      .error ⟨.insufficient_balance,
        "Withdrawal amount $" ++ fmt_money amount ++
          " exceeds available balance $" ++ fmt_money bal⟩
    else
      let transaction_record : Transaction :=
        { user_id := current_user
          amount := -amount
          transaction_type := TransactionType.withdrawal
          description := "Withdrawal of $" ++ fmt_money amount
          timestamp := now }
      let db2 : DB := { db with transactions := db.transactions ++ [transaction_record] }
      .ok (db2,
        { message := "Withdrawal processed successfully"
          amount := fmt_money amount
          new_balance := fmt_money (total_balance db2 current_user) })

/-- Handler `transfer` (app/route/pay.py lines 121-181).  `description` defaults to
the empty string in `TransferRequest`, and the Python idiom `description or default`
takes the default exactly when the string is empty. -/
def transfer (db : DB) (current_user : User) (recipient_username : String)
    (amount : Int) (description : String) (now : Nat) :
    Except Err (DB × PaymentResponse) :=
  if amount ≤ 0 then
    .error ⟨.invalid_amount, "Transfer amount must be greater than zero"⟩
  else
    match get_by_username db recipient_username with
    | none =>
        .error ⟨.user_not_found,
          "User \x27" ++ recipient_username ++ "\x27 not found"⟩
    | some recipient =>
        if recipient.id == current_user.id then
          .error ⟨.invalid_amount, "Cannot transfer to yourself"⟩
        else
          let sender_balance := total_balance db current_user.id
          if sender_balance < amount then
            .error ⟨.insufficient_balance,
              "Transfer amount $" ++ fmt_money amount ++
                " exceeds available balance $" ++ fmt_money sender_balance⟩
          else
            let sender_transaction : Transaction :=
              { user_id := current_user.id
                amount := -amount
                transaction_type := TransactionType.transfer_sent
                description :=
                  if description == "" then "Transfer to " ++ recipient_username
                  else description
                timestamp := now
                reference_user_id := some recipient.id }
            let recipient_transaction : Transaction :=
              { user_id := recipient.id
                amount := amount
                transaction_type := TransactionType.transfer_received
                description :=
                  if description == "" then "Transfer from " ++ current_user.username
                  else description
                timestamp := now
                reference_user_id := some current_user.id }
            let db2 : DB :=
              { db with transactions :=
                  db.transactions ++ [sender_transaction, recipient_transaction] }
            .ok (db2,
              { message := "Transfer to " ++ recipient_username ++ " processed successfully"
                amount := fmt_money amount
                new_balance := fmt_money (total_balance db2 current_user.id) })

/-- Handler `scan_qrcode` (app/route/pay.py lines 359-493): voucher redemption.
For a `request_payment` voucher the scanner pays the owner the fixed
amount of the voucher; for a `send_payment` voucher the owner pays the scanner the
caller-supplied `amount`.  Both branches append the debit/credit pair in one
commit; every failure re-raises after rollback. -/
def scan_qrcode (db : DB) (current_user : User) (qr_tok : Nat)
    (amount : Option Int) (now : Nat) :
    Except Err (DB × PaymentResponse) :=
  match get_by_qr_id db qr_tok with
  | none => .error ⟨.transaction_not_found, "QR code not found"⟩
  | some qrcode =>
    if is_expired qrcode now then
      .error ⟨.transaction_not_found, "QR code has expired or is invalid"⟩
    else if is_exceed_limit db qrcode then
      .error ⟨.transaction_not_found, "QR code has reached its maximum usage limit"⟩
    else
      match qrcode.qr_type with
      | QRType.request_payment =>
        match qrcode.amount with
        | none => .error ⟨.invalid_amount, "QR code has invalid amount"⟩
        | some qamount =>
          if qamount ≤ 0 then
            .error ⟨.invalid_amount, "QR code has invalid amount"⟩
          else
            let payment_amount := qamount
            let recipient_username := owner_username db qrcode
            if qrcode.user_id == current_user.id then
              .error ⟨.invalid_amount, "Cannot transfer to yourself"⟩
            else
              let sender_balance := total_balance db current_user.id
              if sender_balance < payment_amount then
                .error ⟨.insufficient_balance,
                  "Transfer amount $" ++ fmt_money payment_amount ++
                    " exceeds available balance $" ++ fmt_money sender_balance⟩
              else
                let sender_transaction : Transaction :=
                  { user_id := current_user.id
                    amount := -payment_amount
                    transaction_type := TransactionType.qr_payment
                    description := "Payment via QR code to " ++ recipient_username
                    timestamp := now
                    reference_user_id := some qrcode.user_id
                    qr_id := some qrcode.id }
                let recipient_transaction : Transaction :=
                  { user_id := qrcode.user_id
                    amount := payment_amount
                    transaction_type := TransactionType.qr_payment
                    description := "Payment via QR code from " ++ current_user.username
                    timestamp := now
                    reference_user_id := some current_user.id
                    qr_id := some qrcode.id }
                let db2 : DB :=
                  { db with transactions :=
                      db.transactions ++ [sender_transaction, recipient_transaction] }
                .ok (db2,
                  { message :=
                      "QR Payment to " ++ recipient_username ++ " processed successfully"
                    amount := fmt_money payment_amount
                    new_balance := fmt_money (total_balance db2 current_user.id) })
      | QRType.send_payment =>
        match amount with
        | none =>
            .error ⟨.invalid_amount, "Amount must be specified and greater than zero"⟩
        | some pamount =>
          if pamount ≤ 0 then
            .error ⟨.invalid_amount, "Amount must be specified and greater than zero"⟩
          else
            let payment_amount := pamount
            let sender_username := owner_username db qrcode
            if current_user.id == qrcode.user_id then
              .error ⟨.invalid_amount, "Cannot transfer to yourself"⟩
            else
              let sender_balance := total_balance db qrcode.user_id
              if sender_balance < payment_amount then
                .error ⟨.insufficient_balance,
                  "Transfer amount $" ++ fmt_money payment_amount ++
                    " exceeds available balance $" ++ fmt_money sender_balance⟩
              else
                let sender_transaction : Transaction :=
                  { user_id := qrcode.user_id
                    amount := -payment_amount
                    transaction_type := TransactionType.qr_payment
                    description := "Payment via QR code to " ++ current_user.username
                    timestamp := now
                    reference_user_id := some current_user.id
                    qr_id := some qrcode.id }
                let recipient_transaction : Transaction :=
                  { user_id := current_user.id
                    amount := payment_amount
                    transaction_type := TransactionType.qr_payment
                    description := "Payment via QR code from " ++ sender_username
                    timestamp := now
                    reference_user_id := some qrcode.user_id
                    qr_id := some qrcode.id }
                let db2 : DB :=
                  { db with transactions :=
                      db.transactions ++ [sender_transaction, recipient_transaction] }
                .ok (db2,
                  { message :=
                      "QR Payment from " ++ sender_username ++ " processed successfully"
                    amount := fmt_money payment_amount
                    new_balance := fmt_money (total_balance db2 current_user.id) })

/-- The fresh voucher `qrcode_send` builds (app/route/pay.py lines 328-334):
type `send_payment`, `max_use_count = 1`, expiry one minute out. -/
def new_send_qrcode (current_user : Nat) (new_id new_tok now : Nat) : QRCode :=
  { id := new_id
    qr_id := new_tok
    qr_type := QRType.send_payment
    max_use_count := 1
    amount := none
    created_at := now
    expire := some (now + 60)
    user_id := current_user }

/-- Handler `qrcode_send` (app/route/pay.py lines 321-357): constructs the voucher,
runs `clean_unused_send_qrcodes` (which commits the deletion), then adds and
commits the new voucher. -/
def qrcode_send (db : DB) (current_user : Nat) (new_id new_tok now : Nat) :
    DB × QRCode :=
  let qrcode := new_send_qrcode current_user new_id new_tok now
  let db1 := clean_unused_send_qrcodes db
  ({ db1 with qrcodes := db1.qrcodes ++ [qrcode] }, qrcode)

/-- Handler `get_qrcode_by_uuid` (app/route/pay.py lines 495-517): the public view of
a voucher; only `send_payment` vouchers are gated, and only by
`can_be_used` (expiry). -/
def get_qrcode_by_uuid (db : DB) (qr_tok : Nat) (now : Nat) :
    Except Err QRCodeResponse :=
  match get_by_qr_id db qr_tok with
  | none => .error ⟨.transaction_not_found, "QR code not found"⟩
  | some qrcode =>
    if qrcode.qr_type == QRType.send_payment && !can_be_used qrcode now then
      .error ⟨.transaction_not_found, "QR code has expired or is invalid"⟩
    else
      .ok { qr_id := qrcode.qr_id
            qr_type := qrcode.qr_type
            amount := qrcode.amount
            expire := qrcode.expire }

/-! ## Helper lemmas -/

/-- The query `total_balance` is the plain sum over the rows of the account:
the COALESCE
branch for the empty row set agrees with the sum of the empty list. -/
theorem total_balance_eq_sum (db : DB) (u : Nat) :
    total_balance db u
      = ((db.transactions.filter (fun t => t.user_id == u)).map (fun t => t.amount)).sum := by
  unfold total_balance
  split
  · rename_i heq
    rw [heq]
    rfl
  · rfl

/-- Appending rows adds exactly the contribution of the appended rows for each
account. -/
theorem total_balance_append (db : DB) (l : List Transaction) (u : Nat) :
    total_balance { db with transactions := db.transactions ++ l } u
      = total_balance db u
        + ((l.filter (fun t => t.user_id == u)).map (fun t => t.amount)).sum := by
  simp [total_balance_eq_sum, List.filter_append]

/-- Success shape of `transfer`: the preconditions that were checked and the
exact pair of rows the commit appended. -/
theorem transfer_ok_shape (db : DB) (cu : User) (run : String) (amt : Int)
    (desc : String) (now : Nat) (db2 : DB) (resp : PaymentResponse)
    (h : transfer db cu run amt desc now = .ok (db2, resp)) :
    ∃ recipient d1 d2,
      get_by_username db run = some recipient ∧
      0 < amt ∧ ¬ recipient.id = cu.id ∧ amt ≤ total_balance db cu.id ∧
      db2 = { db with transactions := db.transactions ++
        [{ user_id := cu.id
           amount := -amt
           transaction_type := TransactionType.transfer_sent
           description := d1
           timestamp := now
           reference_user_id := some recipient.id
           qr_id := none },
         { user_id := recipient.id
           amount := amt
           transaction_type := TransactionType.transfer_received
           description := d2
           timestamp := now
           reference_user_id := some cu.id
           qr_id := none }] } := by
  by_cases h1 : amt ≤ 0
  · simp [transfer, h1] at h
  · rcases heq : get_by_username db run with _ | recipient
    · simp [transfer, h1, heq] at h
    · by_cases h2 : recipient.id = cu.id
      · simp [transfer, h1, heq, h2] at h
      · by_cases h3 : total_balance db cu.id < amt
        · simp [transfer, h1, heq, h2, h3] at h
        · have hb : ¬ ((recipient.id == cu.id) = true) := by simpa using h2
          simp only [transfer, if_neg h1, heq, if_neg hb, if_neg h3] at h
          refine ⟨recipient, if desc == "" then "Transfer to " ++ run else desc,
            if desc == "" then "Transfer from " ++ cu.username else desc,
            rfl, by omega, h2, by omega, ?_⟩
          exact (congrArg Prod.fst (Except.ok.inj h)).symm

/-- Success shape of `withdraw`. -/
theorem withdraw_ok_shape (db : DB) (u : Nat) (amt : Int) (now : Nat)
    (db2 : DB) (resp : PaymentResponse)
    (h : withdraw db u amt now = .ok (db2, resp)) :
    0 < amt ∧ 0 < total_balance db u ∧ amt ≤ total_balance db u ∧
    db2 = { db with transactions := db.transactions ++
      [{ user_id := u
         amount := -amt
         transaction_type := TransactionType.withdrawal
         description := "Withdrawal of $" ++ fmt_money amt
         timestamp := now
         reference_user_id := none
         qr_id := none }] } := by
  by_cases h1 : amt ≤ 0
  · simp [withdraw, h1] at h
  · by_cases h2 : total_balance db u ≤ 0
    · simp [withdraw, h1, h2] at h
    · by_cases h3 : total_balance db u < amt
      · simp [withdraw, h1, h2, h3] at h
      · simp only [withdraw, if_neg h1, if_neg h2, if_neg h3] at h
        refine ⟨by omega, by omega, by omega, ?_⟩
        exact (congrArg Prod.fst (Except.ok.inj h)).symm

/-- Success shape of `scan_qrcode`: the voucher that was found, the checks it
passed, the payer/payee roles, and the exact pair of rows appended. -/
theorem scan_qrcode_ok_shape (db : DB) (cu : User) (tok : Nat)
    (amt : Option Int) (now : Nat) (db2 : DB) (resp : PaymentResponse)
    (h : scan_qrcode db cu tok amt now = .ok (db2, resp)) :
    ∃ q a payer payee d1 d2,
      get_by_qr_id db tok = some q ∧
      is_expired q now = false ∧
      is_exceed_limit db q = false ∧
      0 < a ∧ ¬ payer = payee ∧
      a ≤ total_balance db payer ∧
      ((q.qr_type = QRType.request_payment ∧ payer = cu.id ∧ payee = q.user_id ∧
          q.amount = some a) ∨
       (q.qr_type = QRType.send_payment ∧ payer = q.user_id ∧ payee = cu.id ∧
          amt = some a)) ∧
      db2 = { db with transactions := db.transactions ++
        [{ user_id := payer
           amount := -a
           transaction_type := TransactionType.qr_payment
           description := d1
           timestamp := now
           reference_user_id := some payee
           qr_id := some q.id },
         { user_id := payee
           amount := a
           transaction_type := TransactionType.qr_payment
           description := d2
           timestamp := now
           reference_user_id := some payer
           qr_id := some q.id }] } := by
  unfold scan_qrcode at h
  split at h
  · simp at h
  · rename_i qrcode hfound
    split at h
    · simp at h
    · split at h
      · simp at h
      · rename_i hexp hlim
        split at h
        · -- request_payment branch
          rename_i htype
          split at h
          · simp at h
          · rename_i qamount hqamt
            split at h
            · simp at h
            · split at h
              · simp at h
              · rename_i hqpos hself
                by_cases hbal : total_balance db cu.id < qamount
                · simp [hbal] at h
                · simp only [if_neg hbal] at h
                  refine ⟨qrcode, qamount, cu.id, qrcode.user_id,
                    "Payment via QR code to " ++ owner_username db qrcode,
                    "Payment via QR code from " ++ cu.username, hfound,
                    by simpa using hexp, by simpa using hlim, by omega,
                    by simp only [beq_iff_eq] at hself; omega, by omega,
                    Or.inl ⟨htype, rfl, rfl, hqamt⟩, ?_⟩
                  exact (congrArg Prod.fst (Except.ok.inj h)).symm
        · -- send_payment branch
          rename_i htype
          split at h
          · simp at h
          · rename_i ao pamount
            split at h
            · simp at h
            · split at h
              · simp at h
              · rename_i hppos hself
                by_cases hbal : total_balance db qrcode.user_id < pamount
                · simp [hbal] at h
                · simp only [if_neg hbal] at h
                  refine ⟨qrcode, pamount, qrcode.user_id, cu.id,
                    "Payment via QR code to " ++ cu.username,
                    "Payment via QR code from " ++ owner_username db qrcode, hfound,
                    by simpa using hexp, by simpa using hlim, by omega,
                    by simp only [beq_iff_eq] at hself; omega, by omega,
                    Or.inr ⟨htype, rfl, rfl, rfl⟩, ?_⟩
                  exact (congrArg Prod.fst (Except.ok.inj h)).symm

/-- Appending a redemption pair (both rows referencing voucher `qid`, held by
two different accounts) raises the owner-filtered use count by at most one. -/
theorem current_use_count_append_pair (db : DB) (t1 t2 : Transaction) (qid : Nat)
    (hq1 : t1.qr_id = some qid) (hq2 : t2.qr_id = some qid)
    (hne : ¬ t1.user_id = t2.user_id) :
    current_use_count { db with transactions := db.transactions ++ [t1, t2] } qid
      ≤ current_use_count db qid + 1 := by
  unfold current_use_count
  cases hrow : db.qrcodes.find? (fun r => r.id == qid) with
  | none => simp
  | some row =>
      by_cases h1 : t1.user_id = row.user_id <;> by_cases h2 : t2.user_id = row.user_id
      · exact absurd (h1.trans h2.symm) hne
      · have b1 : (t1.user_id == row.user_id) = true := by simpa using h1
        have b2 : (t2.user_id == row.user_id) = false := by simpa using h2
        simp [List.filter_append, List.filter, hq1, hq2, b1, b2]
      · have b1 : (t1.user_id == row.user_id) = false := by simpa using h1
        have b2 : (t2.user_id == row.user_id) = true := by simpa using h2
        simp [List.filter_append, List.filter, hq1, hq2, b1, b2]
      · have b1 : (t1.user_id == row.user_id) = false := by simpa using h1
        have b2 : (t2.user_id == row.user_id) = false := by simpa using h2
        simp [List.filter_append, List.filter, hq1, hq2, b1, b2]

/-! ## Claims -/

/-- C1: every committed `transfer` and every committed voucher redemption
(`scan_qrcode`, request-type or send-type) appends exactly two ledger entries
in its one atomic commit — amount `-a` on the payer and `+a` on the payee,
with `a > 0` and payer ≠ payee; on any failure the operation returns an error
carrying no state, so either both entries exist or neither does. -/
theorem C1_double_entry :
    (∀ (db : DB) (cu : User) (run : String) (amt : Int) (desc : String)
        (now : Nat) (db2 : DB) (resp : PaymentResponse),
        transfer db cu run amt desc now = .ok (db2, resp) →
        ∃ payer payee a t1 t2, 0 < a ∧ ¬ payer = payee ∧
          db2.transactions = db.transactions ++ [t1, t2] ∧
          t1.user_id = payer ∧ t1.amount = -a ∧
          t2.user_id = payee ∧ t2.amount = a)
    ∧ (∀ (db : DB) (cu : User) (tok : Nat) (amt : Option Int) (now : Nat)
        (db2 : DB) (resp : PaymentResponse),
        scan_qrcode db cu tok amt now = .ok (db2, resp) →
        ∃ payer payee a t1 t2, 0 < a ∧ ¬ payer = payee ∧
          db2.transactions = db.transactions ++ [t1, t2] ∧
          t1.user_id = payer ∧ t1.amount = -a ∧
          t2.user_id = payee ∧ t2.amount = a) := by
  constructor
  · intro db cu run amt desc now db2 resp h
    obtain ⟨r, d1, d2, hfind, hpos, hne, hbal, hdb⟩ :=
      transfer_ok_shape db cu run amt desc now db2 resp h
    subst hdb
    exact ⟨cu.id, r.id, amt, _, _, hpos, fun hh => hne hh.symm, rfl, rfl, rfl, rfl, rfl⟩
  · intro db cu tok amt now db2 resp h
    obtain ⟨q, a, payer, payee, d1, d2, hfound, hexp, hlim, hpos, hne, hbal, hrole, hdb⟩ :=
      scan_qrcode_ok_shape db cu tok amt now db2 resp h
    subst hdb
    exact ⟨payer, payee, a, _, _, hpos, hne, rfl, rfl, rfl, rfl, rfl⟩

/-- Witness for C1 at a concrete successful transfer. -/
theorem C1_double_entry_witness :
    ∃ payer payee a t1 t2, 0 < a ∧ ¬ payer = payee ∧
      ({ users := [⟨1, "alice"⟩, ⟨2, "bob"⟩],
         transactions :=
           [{ user_id := 1, amount := 1000,
              transaction_type := TransactionType.topup,
              description := "Top-up of $10.00", timestamp := 0 },
            { user_id := 1, amount := -500,
              transaction_type := TransactionType.transfer_sent,
              description := "Transfer to bob", timestamp := 7,
              reference_user_id := some 2 },
            { user_id := 2, amount := 500,
              transaction_type := TransactionType.transfer_received,
              description := "Transfer from alice", timestamp := 7,
              reference_user_id := some 1 }],
         qrcodes := [] } : DB).transactions
        = ({ users := [⟨1, "alice"⟩, ⟨2, "bob"⟩],
             transactions :=
               [{ user_id := 1, amount := 1000,
                  transaction_type := TransactionType.topup,
                  description := "Top-up of $10.00", timestamp := 0 }],
             qrcodes := [] } : DB).transactions ++ [t1, t2] ∧
      t1.user_id = payer ∧ t1.amount = -a ∧
      t2.user_id = payee ∧ t2.amount = a :=
  C1_double_entry.1
    { users := [⟨1, "alice"⟩, ⟨2, "bob"⟩],
      transactions :=
        [{ user_id := 1, amount := 1000,
           transaction_type := TransactionType.topup,
           description := "Top-up of $10.00", timestamp := 0 }],
      qrcodes := [] }
    ⟨1, "alice"⟩ "bob" 500 "" 7 _
    { message := "Transfer to bob processed successfully",
      amount := "5.00", new_balance := "5.00" }
    (by rfl)

/-- C3: for every account (in particular the payer), a non-negative balance
stays non-negative across every committed `withdraw`, `transfer` and voucher
redemption (`scan_qrcode`): each commits only when the debited amount is at
most the balance of the payer. -/
theorem C3_no_overdraft :
    (∀ (db : DB) (u : Nat) (amt : Int) (now : Nat) (db2 : DB)
        (resp : PaymentResponse) (v : Nat),
        0 ≤ total_balance db v →
        withdraw db u amt now = .ok (db2, resp) →
        0 ≤ total_balance db2 v)
    ∧ (∀ (db : DB) (cu : User) (run : String) (amt : Int) (desc : String)
        (now : Nat) (db2 : DB) (resp : PaymentResponse) (v : Nat),
        0 ≤ total_balance db v →
        transfer db cu run amt desc now = .ok (db2, resp) →
        0 ≤ total_balance db2 v)
    ∧ (∀ (db : DB) (cu : User) (tok : Nat) (amt : Option Int) (now : Nat)
        (db2 : DB) (resp : PaymentResponse) (v : Nat),
        0 ≤ total_balance db v →
        scan_qrcode db cu tok amt now = .ok (db2, resp) →
        0 ≤ total_balance db2 v) := by
  refine ⟨?_, ?_, ?_⟩
  · intro db u amt now db2 resp v hv h
    obtain ⟨hpos, hzb, hbal, hdb⟩ := withdraw_ok_shape db u amt now db2 resp h
    subst hdb
    rw [total_balance_append]
    by_cases hu : u = v
    · subst hu
      simp [List.filter]
      omega
    · have b : (u == v) = false := by simpa using hu
      simp [List.filter, b]
      omega
  · intro db cu run amt desc now db2 resp v hv h
    obtain ⟨r, d1, d2, hfind, hpos, hne, hbal, hdb⟩ :=
      transfer_ok_shape db cu run amt desc now db2 resp h
    subst hdb
    rw [total_balance_append]
    by_cases h1 : cu.id = v
    · subst h1
      have b2 : (r.id == cu.id) = false := by simpa using hne
      simp [List.filter, b2]
      omega
    · by_cases h2 : r.id = v
      · subst h2
        have b1 : (cu.id == r.id) = false := by simpa using h1
        simp [List.filter, b1]
        omega
      · have b1 : (cu.id == v) = false := by simpa using h1
        have b2 : (r.id == v) = false := by simpa using h2
        simp [List.filter, b1, b2]
        omega
  · intro db cu tok amt now db2 resp v hv h
    obtain ⟨q, a, payer, payee, d1, d2, hfound, hexp, hlim, hpos, hne, hbal, hrole, hdb⟩ :=
      scan_qrcode_ok_shape db cu tok amt now db2 resp h
    subst hdb
    rw [total_balance_append]
    by_cases h1 : payer = v
    · subst h1
      have b2 : (payee == payer) = false := by
        simp only [beq_eq_false_iff_ne, ne_eq]
        exact fun hh => hne hh.symm
      simp [List.filter, b2]
      omega
    · by_cases h2 : payee = v
      · subst h2
        have b1 : (payer == payee) = false := by simpa using h1
        simp [List.filter, b1]
        omega
      · have b1 : (payer == v) = false := by simpa using h1
        have b2 : (payee == v) = false := by simpa using h2
        simp [List.filter, b1, b2]
        omega

/-- Witness for C3 at a concrete withdrawal. -/
theorem C3_no_overdraft_witness :
    0 ≤ total_balance
      { users := [⟨1, "alice"⟩],
        transactions :=
          [{ user_id := 1, amount := 1000,
             transaction_type := TransactionType.topup,
             description := "Top-up of $10.00", timestamp := 0 },
           { user_id := 1, amount := -400,
             transaction_type := TransactionType.withdrawal,
             description := "Withdrawal of $4.00", timestamp := 5 }],
        qrcodes := [] } 1 :=
  C3_no_overdraft.1
    { users := [⟨1, "alice"⟩],
      transactions :=
        [{ user_id := 1, amount := 1000,
           transaction_type := TransactionType.topup,
           description := "Top-up of $10.00", timestamp := 0 }],
      qrcodes := [] }
    1 400 5 _
    { message := "Withdrawal processed successfully",
      amount := "4.00", new_balance := "6.00" }
    1 (by decide) (by rfl)

/-- C4: a redemption commits only when the use count of the voucher read before it
is strictly below `max_use_count`, and the use count at the instant the
redemption commits still does not exceed `max_use_count` (the committed pair
counts as at most one further use). -/
theorem C4_voucher_use_bound
    (db : DB) (cu : User) (tok : Nat) (amt : Option Int) (now : Nat)
    (db2 : DB) (resp : PaymentResponse) (q : QRCode)
    (hq : get_by_qr_id db tok = some q)
    (h : scan_qrcode db cu tok amt now = .ok (db2, resp)) :
    current_use_count db q.id < q.max_use_count ∧
    current_use_count db2 q.id ≤ q.max_use_count := by
  obtain ⟨q2, a, payer, payee, d1, d2, hfound, hexp, hlim, hpos, hne, hbal, hrole, hdb⟩ :=
    scan_qrcode_ok_shape db cu tok amt now db2 resp h
  rw [hq] at hfound
  obtain rfl := Option.some.inj hfound
  have hcount : current_use_count db q.id < q.max_use_count := by
    unfold is_exceed_limit at hlim
    simp at hlim
    omega
  refine ⟨hcount, ?_⟩
  rw [hdb]
  refine le_trans (current_use_count_append_pair db _ _ q.id rfl rfl hne) ?_
  omega

/-- C2: for every account, at every state, the balance query returns the sum
of the amounts of all committed ledger entries whose account id equals the
id of that account, and returns zero for an account with no entries. -/
theorem C2_balance_from_log :
    (∀ (db : DB) (u : Nat),
        total_balance db u
          = ((db.transactions.filter (fun t => decide (t.user_id = u))).map
              (fun t => t.amount)).sum)
    ∧ (∀ (db : DB) (u : Nat),
        db.transactions.filter (fun t => decide (t.user_id = u)) = [] →
          total_balance db u = 0) := by
  have hfilter : ∀ (db : DB) (u : Nat),
      db.transactions.filter (fun t => decide (t.user_id = u))
        = db.transactions.filter (fun t => t.user_id == u) := by
    intro db u
    apply List.filter_congr
    intro t _
    by_cases hh : t.user_id = u <;> simp [hh]
  constructor
  · intro db u
    rw [total_balance_eq_sum, hfilter]
  · intro db u h
    rw [total_balance_eq_sum, ← hfilter, h]
    rfl

/-- Witness for C2 at a concrete account with no entries. -/
theorem C2_balance_from_log_witness :
    total_balance { users := [], transactions := [], qrcodes := [] } 7 = 0 :=
  C2_balance_from_log.2 { users := [], transactions := [], qrcodes := [] } 7 rfl

/-- C5 (code bug): `topup` with a non-positive amount appends no ledger entry,
but the `InvalidAmountException` it raises is caught by the `except` block of the
handler, logged, and NOT re-raised — the handler returns `None`, so no
InvalidAmount error is surfaced to the caller, contradicting the spec rule
"no operation silently swallows an error". -/
theorem C5_topup_swallows_error (db : DB) (u : Nat) (a : Int) (now : Nat)
    (h : a ≤ 0) :
    topup db u a now = (db, none) := by
  unfold topup
  simp [h]

/-- Witness for C5: a concrete zero-amount top-up is silently swallowed. -/
theorem C5_topup_swallows_error_witness :
    topup { users := [⟨1, "alice"⟩], transactions := [], qrcodes := [] } 1 0 0
      = ({ users := [⟨1, "alice"⟩], transactions := [], qrcodes := [] }, none) :=
  C5_topup_swallows_error _ 1 0 0 (by decide)

/-- C6 counterexample: a concrete self-transfer fails with the InvalidAmount
error kind and detail "Cannot transfer to yourself" — not with a
SelfTransferDisallowed kind; the code has no such exception class. -/
theorem C6_self_transfer_counterexample :
    transfer { users := [⟨1, "alice"⟩], transactions := [], qrcodes := [] }
        ⟨1, "alice"⟩ "alice" 100 "" 0
      = .error ⟨ErrKind.invalid_amount, "Cannot transfer to yourself"⟩ ∧
    ErrKind.invalid_amount ≠ ErrKind.self_transfer_disallowed :=
  ⟨rfl, by decide⟩

/-- C6 (amended): a Transfer or voucher redemption whose payer equals its
payee never commits — the result is always an error, so no ledger entry is
appended — and once the preceding validations pass the error raised is the
InvalidAmount kind with detail "Cannot transfer to yourself" (the code has
no separate SelfTransferDisallowed kind). -/
theorem C6_self_transfer_rejected :
    (∀ (db : DB) (cu : User) (run : String) (amt : Int) (desc : String)
        (now : Nat) (r : User),
        get_by_username db run = some r → r.id = cu.id →
        (∃ e, transfer db cu run amt desc now = .error e) ∧
        (0 < amt →
          transfer db cu run amt desc now
            = .error ⟨ErrKind.invalid_amount, "Cannot transfer to yourself"⟩))
    ∧ (∀ (db : DB) (cu : User) (tok : Nat) (amt : Option Int) (now : Nat)
        (q : QRCode),
        get_by_qr_id db tok = some q → q.user_id = cu.id →
        (∃ e, scan_qrcode db cu tok amt now = .error e) ∧
        (is_expired q now = false → is_exceed_limit db q = false →
         (q.qr_type = QRType.request_payment → ∃ a, q.amount = some a ∧ 0 < a) →
         (q.qr_type = QRType.send_payment → ∃ a, amt = some a ∧ 0 < a) →
          scan_qrcode db cu tok amt now
            = .error ⟨ErrKind.invalid_amount, "Cannot transfer to yourself"⟩)) := by
  constructor
  · intro db cu run amt desc now r hr hid
    constructor
    · cases hres : transfer db cu run amt desc now with
      | error e => exact ⟨e, rfl⟩
      | ok p =>
          obtain ⟨r2, d1, d2, hfind, _, hne, _, _⟩ :=
            transfer_ok_shape db cu run amt desc now p.1 p.2 (by rw [hres])
          rw [hr] at hfind
          obtain rfl := Option.some.inj hfind
          exact absurd hid hne
    · intro hamt
      have h1 : ¬ amt ≤ 0 := by omega
      have hb : (r.id == cu.id) = true := by simpa using hid
      simp [transfer, if_neg h1, hr, hb]
  · intro db cu tok amt now q hq hid
    constructor
    · cases hres : scan_qrcode db cu tok amt now with
      | error e => exact ⟨e, rfl⟩
      | ok p =>
          obtain ⟨q2, a, payer, payee, d1, d2, hfound, _, _, _, hne, _, hrole, _⟩ :=
            scan_qrcode_ok_shape db cu tok amt now p.1 p.2 (by rw [hres])
          rw [hq] at hfound
          obtain rfl := Option.some.inj hfound
          rcases hrole with ⟨_, hp, hpe, _⟩ | ⟨_, hp, hpe, _⟩ <;>
            exact absurd (by omega) hne
    · intro hexp hlim hreq hsend
      cases htype : q.qr_type with
      | request_payment =>
          obtain ⟨a, ha, hapos⟩ := hreq htype
          have hna : ¬ a ≤ 0 := by omega
          have hb : (q.user_id == cu.id) = true := by simpa using hid
          simp [scan_qrcode, hq, hexp, hlim, htype, ha, hna, hb]
      | send_payment =>
          obtain ⟨a, ha, hapos⟩ := hsend htype
          have hna : ¬ a ≤ 0 := by omega
          have hb : (cu.id == q.user_id) = true := by simpa using hid.symm
          simp [scan_qrcode, hq, hexp, hlim, htype, ha, hna, hb]

/-- Witness for C6 (amended) at a concrete self-transfer. -/
theorem C6_self_transfer_rejected_witness :
    (∃ e, transfer { users := [⟨1, "alice"⟩], transactions := [], qrcodes := [] }
        ⟨1, "alice"⟩ "alice" 100 "" 0 = .error e) ∧
    (0 < (100 : Int) →
      transfer { users := [⟨1, "alice"⟩], transactions := [], qrcodes := [] }
        ⟨1, "alice"⟩ "alice" 100 "" 0
        = .error ⟨ErrKind.invalid_amount, "Cannot transfer to yourself"⟩) :=
  C6_self_transfer_rejected.1
    { users := [⟨1, "alice"⟩], transactions := [], qrcodes := [] }
    ⟨1, "alice"⟩ "alice" 100 "" 0 ⟨1, "alice"⟩ rfl rfl

/-- The voucher of the C7 scenario: an unused send voucher owned by user 2. -/
def w7_q : QRCode :=
  { id := 10, qr_id := 100, qr_type := QRType.send_payment, max_use_count := 1,
    amount := none, created_at := 0, expire := some 999, user_id := 2 }

/-- The store of the C7 scenario: two users, no ledger entries, and the
unused send voucher of user 2. -/
def w7_db : DB :=
  { users := [⟨1, "alice"⟩, ⟨2, "bob"⟩], transactions := [], qrcodes := [w7_q] }

/-- C7 counterexample: when user 1 issues a new send voucher, the prune also
deletes the unused send voucher of user 2 — the deletion is not scoped to the
caller, contradicting "unused send-type vouchers owned by any other account
remain in the store unchanged". -/
theorem C7_prune_counterexample :
    ¬ w7_q ∈ ((qrcode_send w7_db 1 11 111 0).1).qrcodes := by decide

/-- C7 (amended): the prune run before issuing a send voucher is owner-blind:
a voucher survives it iff it is NOT (send-type, referenced by no ledger
entry, with no ledger entry carrying a NULL voucher reference).  Unused
send vouchers of every owner — not only the caller — are deleted whenever
the NULL condition lets anything be deleted at all. -/
theorem C7_prune_owner_blind (db : DB) (q : QRCode) (hq : q ∈ db.qrcodes) :
    q ∈ (clean_unused_send_qrcodes db).qrcodes ↔
      ¬ (q.qr_type = QRType.send_payment ∧
         (∀ t ∈ db.transactions, ¬ t.qr_id = some q.id) ∧
         (∀ t ∈ db.transactions, ¬ t.qr_id = none)) := by
  unfold clean_unused_send_qrcodes
  simp [List.mem_filter, hq, sql_not_in_true, List.mem_map, and_assoc]
  push_neg
  constructor
  · rintro (h1 | h2 | ⟨x, hx, hxid⟩) hsend hall
    · exact absurd hsend h1
    · exact h2
    · exact absurd hxid (hall x hx)
  · intro h
    by_cases hsend : q.qr_type = QRType.send_payment
    · by_cases hall : ∀ x ∈ db.transactions, x.qr_id ≠ some q.id
      · exact Or.inr (Or.inl (h hsend hall))
      · push_neg at hall
        obtain ⟨x, hx, hxid⟩ := hall
        exact Or.inr (Or.inr ⟨x, hx, hxid⟩)
    · exact Or.inl hsend

/-- Witness for C7 (amended) at the concrete two-owner scenario. -/
theorem C7_prune_owner_blind_witness :
    w7_q ∈ (clean_unused_send_qrcodes w7_db).qrcodes ↔
      ¬ (w7_q.qr_type = QRType.send_payment ∧
         (∀ t ∈ w7_db.transactions, ¬ t.qr_id = some w7_q.id) ∧
         (∀ t ∈ w7_db.transactions, ¬ t.qr_id = none)) :=
  C7_prune_owner_blind w7_db w7_q (by decide)

/-- C8: if any committed ledger entry has a NULL voucher reference (as every
top-up, withdrawal and plain transfer does), the `NOT IN` subquery set of the prune
 contains NULL, its predicate is never TRUE, and no voucher at all is
deleted; issuing a send voucher then only appends the new voucher. -/
theorem C8_null_disables_prune (db : DB)
    (h : ∃ t ∈ db.transactions, t.qr_id = none) :
    (clean_unused_send_qrcodes db).qrcodes = db.qrcodes ∧
    ∀ (cu new_id new_tok now : Nat),
      ((qrcode_send db cu new_id new_tok now).1).qrcodes
        = db.qrcodes ++ [new_send_qrcode cu new_id new_tok now] := by
  have hnull : none ∈ db.transactions.map (fun t => t.qr_id) := by
    obtain ⟨t, ht, htn⟩ := h
    exact List.mem_map.mpr ⟨t, ht, htn⟩
  have hkeep : (clean_unused_send_qrcodes db).qrcodes = db.qrcodes := by
    unfold clean_unused_send_qrcodes
    simp only
    rw [List.filter_eq_self]
    intro q hq
    simp [sql_not_in_true, hnull]
  refine ⟨hkeep, fun cu nid ntok now => ?_⟩
  unfold qrcode_send
  simp [hkeep]

/-- The store of the C8 scenario: one top-up entry (NULL voucher reference)
and an unused send voucher owned by user 2. -/
def w8_db : DB :=
  { users := [⟨1, "alice"⟩, ⟨2, "bob"⟩],
    transactions :=
      [{ user_id := 1, amount := 1000,
         transaction_type := TransactionType.topup,
         description := "Top-up of $10.00", timestamp := 0 }],
    qrcodes := [{ id := 10, qr_id := 100, qr_type := QRType.send_payment,
                  max_use_count := 1, amount := none, created_at := 0,
                  expire := some 999, user_id := 2 }] }

/-- Witness for C8: with one NULL-reference entry present, the prune keeps
every voucher. -/
theorem C8_null_disables_prune_witness :
    (clean_unused_send_qrcodes w8_db).qrcodes = w8_db.qrcodes :=
  (C8_null_disables_prune w8_db (by decide)).1

/-- The voucher of the C4 witness scenario: request-type, amount 1.00,
two uses allowed, owned by user 2. -/
def w4_q : QRCode :=
  { id := 3, qr_id := 30, qr_type := QRType.request_payment, max_use_count := 2,
    amount := some 100, created_at := 0, expire := some 50, user_id := 2 }

/-- The store of the C4 witness scenario before the redemption. -/
def w4_db : DB :=
  { users := [⟨1, "alice"⟩, ⟨2, "bob"⟩],
    transactions :=
      [{ user_id := 1, amount := 1000,
         transaction_type := TransactionType.topup,
         description := "Top-up of $10.00", timestamp := 0 }],
    qrcodes := [w4_q] }

/-- The store of the C4 witness scenario after user 1 redeems the voucher. -/
def w4_db2 : DB :=
  { users := [⟨1, "alice"⟩, ⟨2, "bob"⟩],
    transactions :=
      [{ user_id := 1, amount := 1000,
         transaction_type := TransactionType.topup,
         description := "Top-up of $10.00", timestamp := 0 },
       { user_id := 1, amount := -100,
         transaction_type := TransactionType.qr_payment,
         description := "Payment via QR code to bob", timestamp := 10,
         reference_user_id := some 2, qr_id := some 3 },
       { user_id := 2, amount := 100,
         transaction_type := TransactionType.qr_payment,
         description := "Payment via QR code from alice", timestamp := 10,
         reference_user_id := some 1, qr_id := some 3 }],
    qrcodes := [w4_q] }

/-- Witness for C4 at a concrete committed redemption. -/
theorem C4_voucher_use_bound_witness :
    current_use_count w4_db w4_q.id < w4_q.max_use_count ∧
    current_use_count w4_db2 w4_q.id ≤ w4_q.max_use_count :=
  C4_voucher_use_bound w4_db ⟨1, "alice"⟩ 30 none 10 w4_db2
    { message := "QR Payment to bob processed successfully",
      amount := "1.00", new_balance := "9.00" }
    w4_q rfl (by rfl)

/-- The voucher of the C9 scenario: request-type, amount 1.00, single use,
owned by user 2, expiring at time 5. -/
def w9_q : QRCode :=
  { id := 3, qr_id := 30, qr_type := QRType.request_payment, max_use_count := 1,
    amount := some 100, created_at := 0, expire := some 5, user_id := 2 }

/-- C9 scenario, expired run: no redemption yet, scanned after the expiry. -/
def w9_db_expired : DB :=
  { users := [⟨1, "alice"⟩, ⟨2, "bob"⟩], transactions := [], qrcodes := [w9_q] }

/-- C9 scenario, exhausted run: one committed redemption (the owner-side
entry), scanned again before the expiry. -/
def w9_db_exhausted : DB :=
  { users := [⟨1, "alice"⟩, ⟨2, "bob"⟩],
    transactions :=
      [{ user_id := 2, amount := 100,
         transaction_type := TransactionType.qr_payment,
         description := "Payment via QR code from carol", timestamp := 1,
         reference_user_id := some 3, qr_id := some 3 }],
    qrcodes := [w9_q] }

/-- C9 counterexample: the expired run and the exhausted run of the same
voucher return different `Err` values — the kinds agree, but the detail
strings differ, so the caller CAN tell expiry from exhaustion apart. -/
theorem C9_error_distinguishable_counterexample :
    scan_qrcode w9_db_expired ⟨1, "alice"⟩ 30 none 10
      = .error ⟨ErrKind.transaction_not_found, "QR code has expired or is invalid"⟩ ∧
    scan_qrcode w9_db_exhausted ⟨1, "alice"⟩ 30 none 2
      = .error ⟨ErrKind.transaction_not_found, "QR code has reached its maximum usage limit"⟩ ∧
    (⟨ErrKind.transaction_not_found, "QR code has expired or is invalid"⟩ : Err)
      ≠ ⟨ErrKind.transaction_not_found, "QR code has reached its maximum usage limit"⟩ :=
  ⟨rfl, rfl, by decide⟩

/-- C9 (amended): an expired voucher and an exhausted voucher both fail with
the same error kind (TransactionNotFound, surfaced as HTTP 400) but with
different detail strings, so the response body does distinguish the two
failure modes. -/
theorem C9_unusable_same_kind_distinct_detail :
    (∀ (db : DB) (cu : User) (tok : Nat) (amt : Option Int) (now : Nat)
        (q : QRCode),
        get_by_qr_id db tok = some q → is_expired q now = true →
        scan_qrcode db cu tok amt now
          = .error ⟨ErrKind.transaction_not_found,
              "QR code has expired or is invalid"⟩)
    ∧ (∀ (db : DB) (cu : User) (tok : Nat) (amt : Option Int) (now : Nat)
        (q : QRCode),
        get_by_qr_id db tok = some q → is_expired q now = false →
        is_exceed_limit db q = true →
        scan_qrcode db cu tok amt now
          = .error ⟨ErrKind.transaction_not_found,
              "QR code has reached its maximum usage limit"⟩)
    ∧ ("QR code has expired or is invalid" : String)
        ≠ "QR code has reached its maximum usage limit" := by
  refine ⟨?_, ?_, by decide⟩
  · intro db cu tok amt now q hq hexp
    simp [scan_qrcode, hq, hexp]
  · intro db cu tok amt now q hq hexp hlim
    simp [scan_qrcode, hq, hexp, hlim]

/-- Witness for C9 (amended) at the concrete expired run. -/
theorem C9_unusable_same_kind_distinct_detail_witness :
    scan_qrcode w9_db_expired ⟨1, "alice"⟩ 30 none 10
      = .error ⟨ErrKind.transaction_not_found, "QR code has expired or is invalid"⟩ :=
  C9_unusable_same_kind_distinct_detail.1 w9_db_expired ⟨1, "alice"⟩ 30 none 10
    w9_q rfl rfl

/-- The voucher of the C10 scenario: send-type, single use, owned by user 2,
expiring at time 100. -/
def w10_q : QRCode :=
  { id := 5, qr_id := 50, qr_type := QRType.send_payment, max_use_count := 1,
    amount := none, created_at := 0, expire := some 100, user_id := 2 }

/-- The store of the C10 scenario: the voucher has been redeemed once (the
owner-side entry is committed), so its use count equals max_use_count, and
it is not yet expired at time 10. -/
def w10_db : DB :=
  { users := [⟨1, "alice"⟩, ⟨2, "bob"⟩],
    transactions :=
      [{ user_id := 2, amount := -30,
         transaction_type := TransactionType.qr_payment,
         description := "Payment via QR code to alice", timestamp := 1,
         reference_user_id := some 1, qr_id := some 5 }],
    qrcodes := [w10_q] }

/-- C10 counterexample: an unexpired send voucher whose use count has reached
max_use_count is still returned by the public view — contradicting the claim
that such a voucher is not returned. -/
theorem C10_exhausted_view_counterexample :
    is_expired w10_q 10 = false ∧
    w10_q.qr_type = QRType.send_payment ∧
    w10_q.max_use_count ≤ current_use_count w10_db w10_q.id ∧
    get_qrcode_by_uuid w10_db 50 10
      = .ok { qr_id := 50, qr_type := QRType.send_payment, amount := none,
              expire := some 100 } :=
  ⟨rfl, rfl, by decide, rfl⟩

/-- C10 (amended): `get_qrcode_by_uuid` gates a send-type voucher only on
expiry (`can_be_used` never consults the use count): a send-type expired
voucher fails; any unexpired voucher — including a send voucher at its use
limit — and any request-type voucher gets the public projection. -/
theorem C10_public_view_expiry_only
    (db : DB) (tok : Nat) (now : Nat) (q : QRCode)
    (hq : get_by_qr_id db tok = some q) :
    (q.qr_type = QRType.send_payment → is_expired q now = true →
      get_qrcode_by_uuid db tok now
        = .error ⟨ErrKind.transaction_not_found,
            "QR code has expired or is invalid"⟩)
    ∧ (is_expired q now = false →
      get_qrcode_by_uuid db tok now
        = .ok { qr_id := q.qr_id, qr_type := q.qr_type, amount := q.amount,
                expire := q.expire })
    ∧ (q.qr_type = QRType.request_payment →
      get_qrcode_by_uuid db tok now
        = .ok { qr_id := q.qr_id, qr_type := q.qr_type, amount := q.amount,
                expire := q.expire }) := by
  refine ⟨?_, ?_, ?_⟩
  · intro ht hexp
    simp [get_qrcode_by_uuid, hq, can_be_used, hexp, ht]
  · intro hexp
    simp [get_qrcode_by_uuid, hq, can_be_used, hexp]
  · intro ht
    simp [get_qrcode_by_uuid, hq, can_be_used, ht]

/-- Witness for C10 (amended): the concrete exhausted-but-unexpired send
voucher is returned. -/
theorem C10_public_view_expiry_only_witness :
    get_qrcode_by_uuid w10_db 50 10
      = .ok { qr_id := w10_q.qr_id, qr_type := w10_q.qr_type,
              amount := w10_q.amount, expire := w10_q.expire } :=
  (C10_public_view_expiry_only w10_db 50 10 w10_q rfl).2.1 rfl

end Alanpay
